import Mathlib

/-!
Shallow embedding of the libem estimation engine.

The K-means part embeds src/unnamed/part_000 over exact rationals (ℚ in place
of C doubles).  Flat C arrays become Lean lists; a read through a pointer is
modelled with List.getD (out-of-bounds reads yield the default 0, out-of-bounds
writes are dropped, mirroring the fact that they do not change the array
itself).  Division by zero, which in C produces inf/nan, is the ℚ convention
x / 0 = 0; the concrete inputs used in the theorems below avoid it except where
the divide-by-zero itself is the point (and is then stated via the member
count).  The source's quirks are reproduced deliberately:
  - choose_all_clusters_from_distances starts from closest_distance = 100000
    and best_index = -1 (lines 159-160);
  - calc_cluster_centroids "zeroes" only the single index dim*k (line 189)
    and divides by the member count even when it is zero (lines 203-212);
  - the main loop passes (dist, X) to choose_all_clusters_from_distances,
    i.e. with the data and distance arrays swapped (line 384);
  - kmeans overwrites the caller's centroid pointer with the local seed
    array {0, 5, 10} (lines 338-340) and starts from prev_totD = 10000.0.

The EM driver (lines 478-515) is embedded from its pseudocode: the only
likelihood initialization present is initial_likelihood = 0, and the loop
guard is the signed comparison likelihood - old_likelihood > epsilon; the
per-call E-step likelihood is abstracted as a sequence ℕ → ℚ.

The E-step responsibility computation and the Matrix class operations have no
implementation in the repository (estep is non-executable pseudocode and only
Matrix.h declarations exist), so those definitions are modelled from the spec
and are marked as such in their doc comments.
-/

/-- Source macro sqr(x) = (x)*(x). -/
def sqr (x : ℚ) : ℚ := x * x

/-- A C pointer into a flat double array: reading p[t] where p = l + off. -/
def ptr (l : List ℚ) (off : ℕ) : ℕ → ℚ :=
  fun t => l.getD (off + t) 0

/-- euclid_distance (src lines 125-131): squared Euclidean distance between
two dim-dimensional points read through pointers. -/
def euclid_distance (dim : ℕ) (p1 p2 : ℕ → ℚ) : ℚ :=
  ∑ ii ∈ Finset.range dim, sqr (p1 ii - p2 ii)

/-- all_distances (src lines 133-140): the n×k table
distance_out[ii*k + jj] = distance from point ii to centroid jj. -/
def all_distances (dim n k : ℕ) (X centroid : List ℚ) : List ℚ :=
  (List.range (n * k)).map fun idx =>
    euclid_distance dim (ptr X ((idx / k) * dim)) (ptr centroid ((idx % k) * dim))

/-- calc_total_distance (src lines 142-153): sum of squared distances from
each point to its assigned centroid, skipping assignments equal to -1. -/
def calc_total_distance (dim n k : ℕ) (X centroids : List ℚ)
    (cluster_assignment_index : List ℤ) : ℚ :=
  ∑ ii ∈ Finset.range n,
    if cluster_assignment_index.getD ii (-1) = -1 then 0
    else euclid_distance dim (ptr X (ii * dim))
      (ptr centroids ((cluster_assignment_index.getD ii (-1)).toNat * dim))

/-- The inner jj-loop of choose_all_clusters_from_distances (src lines
159-172): fold over clusters keeping (best_index, closest_distance), starting
from (-1, 100000), updating on a strict decrease (so ties keep the lower
index, and a point farther than 100000 from every centroid keeps index -1). -/
def choose_point (k : ℕ) (row : ℕ → ℚ) : ℤ × ℚ :=
  (List.range k).foldl
    (fun acc jj => if row jj < acc.2 then ((jj : ℤ), row jj) else acc)
    (-1, 100000)

/-- choose_all_clusters_from_distances (src lines 155-176).  The parameter X
is declared by the source but never read by the function; only
distance_array[ii*k + jj] is consulted. -/
def choose_all_clusters_from_distances (dim n k : ℕ) (X distance_array : List ℚ) :
    List ℤ :=
  (List.range n).map fun ii =>
    (choose_point k (fun jj => distance_array.getD (ii * k + jj) 0)).1

/-- get_cluster_member_count (src lines 215-224): count members of each
cluster.  A negative assignment would index out of bounds in C; the model
skips it (no in-array effect). -/
def get_cluster_member_count (n k : ℕ) (cluster_assignment_index : List ℤ) :
    List ℕ :=
  (List.range n).foldl
    (fun counts ii =>
      let a := cluster_assignment_index.getD ii (-1)
      if 0 ≤ a then counts.set a.toNat (counts.getD a.toNat 0 + 1) else counts)
    (List.replicate k 0)

/-- calc_cluster_centroids (src lines 178-213), bugs included: the
"initialize cluster centroid coordinate sums to zero" loop only writes the
single index dim*k (line 189; the member-count zeroing and the per-coordinate
zeroing are commented out in the source), so the accumulation happens on top
of the incoming centroid values; the division loop divides every coordinate
of every cluster by its member count, also when that count is zero (the
source's own comment: "warning!! will divide by zero here for any empty
clusters").  A negative assignment would write out of bounds in C; the model
skips it. -/
def calc_cluster_centroids (dim n k : ℕ) (X : List ℚ)
    (cluster_assignment_index : List ℤ) (new_cluster_centroid : List ℚ) :
    List ℚ :=
  let c1 := if k = 0 then new_cluster_centroid else new_cluster_centroid.set (dim * k) 0
  let c2 := (List.range n).foldl
    (fun c ii =>
      let a := cluster_assignment_index.getD ii (-1)
      if 0 ≤ a then
        (List.range dim).foldl
          (fun c jj =>
            c.set (a.toNat * dim + jj)
              (c.getD (a.toNat * dim + jj) 0 + X.getD (ii * dim + jj) 0))
          c
      else c)
    c1
  (List.range k).foldl
    (fun c ii =>
      let cluster_member_count := get_cluster_member_count n k cluster_assignment_index
      (List.range dim).foldl
        (fun c jj =>
          c.set (ii * dim + jj)
            (c.getD (ii * dim + jj) 0 / ((cluster_member_count.getD ii 0 : ℕ) : ℚ)))
        c)
    c2

/-- assignment_change_count (src lines 277-284): number of indices where two
assignment arrays differ. -/
def assignment_change_count (n : ℕ) (a b : List ℤ) : ℕ :=
  ((List.range n).filter fun ii => a.getD ii (-1) ≠ b.getD ii (-1)).length

/-- The mutable state of the kmeans batch loop (src lines 328-348):
current and previous assignment arrays, the centroid array and prev_totD. -/
structure KState where
  cur : List ℤ
  prev : List ℤ
  centroid : List ℚ
  prevTotD : ℚ
deriving DecidableEq, Repr

/-- Outcome of one execution of the kmeans loop body: rollback-and-break
(totD worsened), converged-and-break (no assignment change; the accepted totD
of the iteration is carried), or continue with the next state. -/
inductive KStep where
  | rollback (s : KState) : KStep
  | converged (s : KState) (totD : ℚ) : KStep
  | next (s : KState) : KStep
deriving DecidableEq, Repr

/-- The centroid array after the centroid-update step of an iteration
(src line 359). -/
def body_centroid (dim n k : ℕ) (X : List ℚ) (s : KState) : List ℚ :=
  calc_cluster_centroids dim n k X s.cur s.centroid

/-- The totD computed in an iteration (src line 366), from the updated
centroids and the current assignment. -/
def body_totD (dim n k : ℕ) (X : List ℚ) (s : KState) : ℚ :=
  calc_total_distance dim n k X (body_centroid dim n k X s) s.cur

/-- The state produced by the rollback branch (src lines 369-379): the
previous assignment is restored and the centroids are recomputed from it by
another call to calc_cluster_centroids, applied to the just-updated centroid
values. -/
def rollback_state (dim n k : ℕ) (X : List ℚ) (s : KState) : KState :=
  ⟨s.prev, s.prev,
   calc_cluster_centroids dim n k X s.prev (body_centroid dim n k X s),
   s.prevTotD⟩

/-- The reassignment computed inside the loop (src lines 383-384): dist is
filled from the updated centroids, but the call
choose_all_clusters_from_distances(dim, n, k, dist, X, ...) passes dist in
the X position and X in the distance_array position, so the raw data array
is the one read as the distance table. -/
def body_reassign (dim n k : ℕ) (X : List ℚ) (s : KState) : List ℤ :=
  choose_all_clusters_from_distances dim n k
    (all_distances dim n k X (body_centroid dim n k X s)) X

/-- One execution of the kmeans while-loop body (src lines 351-398):
update centroids, compute totD, roll back and break if totD > prev_totD;
otherwise save the assignment, reassign (via the swapped call, see
body_reassign) and break if nothing changed, else continue with
prev_totD := totD. -/
def kmeans_body (dim n k : ℕ) (X : List ℚ) (s : KState) : KStep :=
  if s.prevTotD < body_totD dim n k X s then
    KStep.rollback (rollback_state dim n k X s)
  else if assignment_change_count n (body_reassign dim n k X s) s.cur = 0 then
    KStep.converged
      ⟨body_reassign dim n k X s, s.cur, body_centroid dim n k X s, s.prevTotD⟩
      (body_totD dim n k X s)
  else
    KStep.next
      ⟨body_reassign dim n k X s, s.cur, body_centroid dim n k X s,
       body_totD dim n k X s⟩

/-- The kmeans batch loop, fuelled by the remaining iteration budget
(while (batch_iteration < 100), src line 351; batch_iteration only advances
on non-breaking iterations).  Returns the final state, the number of body
executions, and the list of accepted totD values in order (a rolled-back totD
is not accepted; the totD of a converged iteration is). -/
def kmeans_loop (dim n k : ℕ) (X : List ℚ) : ℕ → KState → KState × ℕ × List ℚ
  | 0, s => (s, 0, [])
  | fuel + 1, s =>
    match kmeans_body dim n k X s with
    | KStep.rollback s1 => (s1, 1, [])
    | KStep.converged s1 t => (s1, 1, [t])
    | KStep.next s1 =>
      let r := kmeans_loop dim n k X fuel s1
      (r.1, r.2.1 + 1, s1.prevTotD :: r.2.2)

/-- kmeans (src lines 316-407).  The caller-supplied cluster_centroid
argument is immediately overwritten with the hardcoded local seed array
{0, 5, 10} (lines 338-340), so it is never read; the initial assignment is
computed from real distances (lines 343-344, correct argument order), prev
is a copy of it, and prev_totD starts at 10000.0 (line 348).  The function
returns the final assignment array (the only output the source writes back,
line 401) together with the final loop state, the number of loop-body
executions and the accepted-totD trace. -/
def kmeans (dim : ℕ) (X : List ℚ) (n k : ℕ) (cluster_centroid : List ℚ) :
    List ℤ × KState × ℕ × List ℚ :=
  let seed : List ℚ := [0, 5, 10]
  let dist := all_distances dim n k X seed
  let cur := choose_all_clusters_from_distances dim n k X dist
  let r := kmeans_loop dim n k X 100 ⟨cur, cur, seed, 10000⟩
  (r.1.cur, r.1, r.2.1, r.2.2)

/-- The specification-side mean: componentwise arithmetic mean of the data
points assigned to cluster c (coordinate j), for comparison with
calc_cluster_centroids. -/
def cluster_mean (dim n : ℕ) (X : List ℚ) (assignment : List ℤ) (c j : ℕ) : ℚ :=
  (∑ ii ∈ Finset.range n,
      if assignment.getD ii (-1) = (c : ℤ) then X.getD (ii * dim + j) 0 else 0) /
  (((Finset.range n).filter fun ii => assignment.getD ii (-1) = (c : ℤ)).card : ℚ)

/-- The only likelihood initialization in the EM driver:
initial_likelihood = 0 (src line 494). -/
def EM_initial_likelihood : ℚ := 0

/-- The EM driver's while loop (src lines 501-510), fuelled: the guard is the
signed comparison likelihood - old_likelihood > epsilon; each pass sets
old_likelihood := likelihood and likelihood := the next E-step's likelihood
(abstracted as the sequence L, indexed by how many E-steps have run).
Returns the number of E-steps executed. -/
def EM_loop (epsilon : ℚ) (L : ℕ → ℚ) : ℕ → ℚ → ℚ → ℕ → ℕ
  | 0, _, _, count => count
  | fuel + 1, likelihood, old_likelihood, count =>
    if epsilon < likelihood - old_likelihood then
      EM_loop epsilon L fuel (L count) likelihood (count + 1)
    else count

/-- The EM driver (src lines 478-515): both likelihood variables start from
the driver's initialization value 0; returns how many E-steps run. -/
def EM_estep_count (epsilon : ℚ) (L : ℕ → ℚ) (fuel : ℕ) : ℕ :=
  EM_loop epsilon L fuel EM_initial_likelihood EM_initial_likelihood 0

/-- Modelled from the spec: the E-step responsibility of component k for one
point, given the weighted densities w j = pi_j * density_j(x).  The source's
estep (src lines 441-458) is non-executable pseudocode and contains neither
the normalization nor the degenerate-denominator fallback; the spec
prescribes p_nk = w k / Σ_j w j, with the uniform fallback 1/K when the
denominator is zero. -/
def estep_responsibility (K : ℕ) (w : ℕ → ℚ) (k : ℕ) : ℚ :=
  if (∑ j ∈ Finset.range K, w j) = 0 then 1 / (K : ℚ)
  else w k / ∑ j ∈ Finset.range K, w j

/-- Error kinds of the matrix engine (SizeError and LapackError,
src/Matrix.h lines 8-31). -/
inductive MatErr where
  | sizeError
  | lapackError
deriving DecidableEq, Repr

/-- Modelled from the spec: the Matrix class of src/Matrix.h (its member
definitions are not part of the repository; only the header is).  A dense
r×c rational matrix. -/
structure Mat where
  r : ℕ
  c : ℕ
  entries : Matrix (Fin r) (Fin c) ℚ

/-- A square view of a matrix whose row and column counts are equal. -/
def Mat.sq (A : Mat) (h : A.r = A.c) : Matrix (Fin A.r) (Fin A.r) ℚ :=
  fun i j => A.entries i (Fin.cast h j)

/-- Modelled from the spec: Matrix::inv (declared at src/Matrix.h lines
103-105; no implementation in the repository).  Fails with SizeError if the
matrix is not square, with LapackError if it is singular, and otherwise
returns the exact inverse det⁻¹ · adjugate. -/
def Mat.inv (A : Mat) : Except MatErr Mat :=
  if h : A.r = A.c then
    if (A.sq h).det = 0 then Except.error MatErr.lapackError
    else Except.ok ⟨A.r, A.r, fun i j => ((A.sq h).det)⁻¹ * (A.sq h).adjugate i j⟩
  else Except.error MatErr.sizeError

/-- Modelled from the spec: Matrix::dot (declared at src/Matrix.h lines
107-110; no implementation in the repository).  Fails with SizeError unless
the left column count equals the right row count; otherwise returns the
r(A)×c(B) product.  The model is pure, so the operands are left untouched by
construction. -/
def Mat.dot (A B : Mat) : Except MatErr Mat :=
  if h : A.c = B.r then
    Except.ok ⟨A.r, B.c, fun i j => ∑ l : Fin A.c, A.entries i l * B.entries (Fin.cast h l) j⟩
  else Except.error MatErr.sizeError

/-- The identity matrix as a Mat. -/
def Mat.identity (n : ℕ) : Mat :=
  ⟨n, n, fun i j => if i = j then 1 else 0⟩

/-- Concrete loop state entering iteration 1 of the run
kmeans 1 [1, 4, 9] 3 2 (used by the C2 theorems below). -/
def ksIter1 : KState := ⟨[0, 1, 0], [0, 1, 1], [1, 9, 0], 25⟩

/-- Concrete well-conditioned square matrix (2·identity) for the C8 witness. -/
def matTwo : Mat := ⟨2, 2, fun i j => if i = j then 2 else 0⟩

/-- Concrete 3×2 matrix of ones for the C9 witness (spec Scenario 4). -/
def matA32 : Mat := ⟨3, 2, fun _ _ => 1⟩

/-- Concrete 3×4 matrix of ones for the C9 witness (spec Scenario 4). -/
def matB34 : Mat := ⟨3, 4, fun _ _ => 1⟩

/-! Helper lemmas about the kmeans loop. -/

theorem kmeans_body_rollback_of_lt {dim n k : ℕ} {X : List ℚ} {s : KState}
    (h : s.prevTotD < body_totD dim n k X s) :
    kmeans_body dim n k X s = KStep.rollback (rollback_state dim n k X s) := by
  rw [kmeans_body, if_pos h]

theorem kmeans_loop_step_rollback {dim n k : ℕ} {X : List ℚ} {s s1 : KState}
    (fuel : ℕ) (h : kmeans_body dim n k X s = KStep.rollback s1) :
    kmeans_loop dim n k X (fuel + 1) s = (s1, 1, []) := by
  simp only [kmeans_loop, h]

theorem kmeans_loop_step_converged {dim n k : ℕ} {X : List ℚ} {s s1 : KState}
    {t : ℚ} (fuel : ℕ) (h : kmeans_body dim n k X s = KStep.converged s1 t) :
    kmeans_loop dim n k X (fuel + 1) s = (s1, 1, [t]) := by
  simp only [kmeans_loop, h]

theorem kmeans_loop_step_next {dim n k : ℕ} {X : List ℚ} {s s1 : KState}
    (fuel : ℕ) (h : kmeans_body dim n k X s = KStep.next s1) :
    kmeans_loop dim n k X (fuel + 1) s =
      ((kmeans_loop dim n k X fuel s1).1,
       (kmeans_loop dim n k X fuel s1).2.1 + 1,
       s1.prevTotD :: (kmeans_loop dim n k X fuel s1).2.2) := by
  simp only [kmeans_loop, h]

theorem kmeans_loop_count_le (dim n k : ℕ) (X : List ℚ) :
    ∀ (fuel : ℕ) (s : KState), (kmeans_loop dim n k X fuel s).2.1 ≤ fuel := by
  intro fuel
  induction fuel with
  | zero => intro s; simp [kmeans_loop]
  | succ fuel ih =>
    intro s
    cases hb : kmeans_body dim n k X s with
    | rollback s1 => rw [kmeans_loop_step_rollback fuel hb]; simp
    | converged s1 t => rw [kmeans_loop_step_converged fuel hb]; simp
    | next s1 =>
      rw [kmeans_loop_step_next fuel hb]
      exact Nat.succ_le_succ (ih s1)

theorem kmeans_loop_trace_le (dim n k : ℕ) (X : List ℚ) :
    ∀ (fuel : ℕ) (s : KState),
      ((kmeans_loop dim n k X fuel s).2.2).Chain' (fun a b => b ≤ a) ∧
      ∀ x ∈ (kmeans_loop dim n k X fuel s).2.2, x ≤ s.prevTotD := by
  intro fuel
  induction fuel with
  | zero => intro s; simp [kmeans_loop]
  | succ fuel ih =>
    intro s
    by_cases h1 : s.prevTotD < body_totD dim n k X s
    · rw [kmeans_loop_step_rollback fuel (kmeans_body_rollback_of_lt h1)]
      simp
    · have hle : body_totD dim n k X s ≤ s.prevTotD := le_of_not_lt h1
      by_cases h2 :
          assignment_change_count n (body_reassign dim n k X s) s.cur = 0
      · have hb : kmeans_body dim n k X s =
            KStep.converged
              ⟨body_reassign dim n k X s, s.cur, body_centroid dim n k X s,
               s.prevTotD⟩ (body_totD dim n k X s) := by
          rw [kmeans_body, if_neg h1, if_pos h2]
        rw [kmeans_loop_step_converged fuel hb]
        simp [hle]
      · have hb : kmeans_body dim n k X s =
            KStep.next
              ⟨body_reassign dim n k X s, s.cur, body_centroid dim n k X s,
               body_totD dim n k X s⟩ := by
          rw [kmeans_body, if_neg h1, if_neg h2]
        rw [kmeans_loop_step_next fuel hb]
        obtain ⟨ihc, ihb⟩ := ih
          ⟨body_reassign dim n k X s, s.cur, body_centroid dim n k X s,
           body_totD dim n k X s⟩
        constructor
        · refine List.chain'_cons'.mpr ⟨?_, ihc⟩
          intro y hy
          exact ihb y (List.mem_of_mem_head? hy)
        · intro x hx
          rcases List.mem_cons.mp hx with hx | hx
          · simpa [hx] using hle
          · exact le_trans (ihb x hx) hle

/-- C5: for every input dataset (any dim, X, n, k and caller centroid
argument), the kmeans main loop executes its body at most 100 times — the
while guard batch_iteration < 100 bounds the run even when neither the
assignment-unchanged nor the non-improvement stopping condition fires. -/
theorem C5_kmeans_iteration_cap (dim : ℕ) (X : List ℚ) (n k : ℕ)
    (cluster_centroid : List ℚ) :
    (kmeans dim X n k cluster_centroid).2.2.1 ≤ 100 := by
  simp only [kmeans]
  exact kmeans_loop_count_le dim n k X 100 _

/-- C10: the result of kmeans does not depend on the caller-supplied initial
centroid argument — the function rebinds the centroid pointer to the
hardcoded local seed array {0, 5, 10} before any use, so for any two values
of that argument every output (the final assignment included) is
identical, and the caller's centroid storage is never written. -/
theorem C10_kmeans_ignores_initial_centroids (dim : ℕ) (X : List ℚ) (n k : ℕ)
    (centroid1 centroid2 : List ℚ) :
    kmeans dim X n k centroid1 = kmeans dim X n k centroid2 := rfl

/-- C6: contrary to the claim, the EM driver initializes its likelihood to 0
(initial_likelihood = 0, src line 494), not to negative infinity or a very
negative sentinel; with both likelihood variables starting at this value the
signed loop guard likelihood - old_likelihood > epsilon fails at once for
every positive epsilon, so no E-step at all executes (the first delta is
rejected, not unconditionally accepted), whatever likelihoods the E-step
would produce. -/
theorem C6_em_likelihood_init_zero_no_estep (epsilon : ℚ) (L : ℕ → ℚ)
    (fuel : ℕ) (h : 0 < epsilon) :
    EM_initial_likelihood = 0 ∧ EM_estep_count epsilon L fuel = 0 := by
  refine ⟨rfl, ?_⟩
  cases fuel with
  | zero => rfl
  | succ fuel =>
    simp only [EM_estep_count, EM_initial_likelihood, EM_loop, sub_zero]
    rw [if_neg (not_lt.mpr h.le)]

/-- Witness for C6 at the concrete threshold epsilon = 1e-6 and an E-step
likelihood sequence constantly -5. -/
theorem C6_em_likelihood_init_zero_no_estep_witness :
    (0 : ℚ) < 1 / 1000000 ∧
    (EM_initial_likelihood = 0 ∧
     EM_estep_count (1 / 1000000) (fun _ => -5) 10 = 0) :=
  ⟨by norm_num,
   C6_em_likelihood_init_zero_no_estep (1 / 1000000) (fun _ => -5) 10
     (by norm_num)⟩

/-- C7: each row of the responsibility matrix produced by the (spec-modelled)
E-step sums to exactly 1, and for a point whose total weighted density over
all K components is zero the uniform fallback 1/K is substituted for every
component. -/
theorem C7_responsibility_row_sums_to_one (K : ℕ) (w : ℕ → ℚ) (hK : 0 < K) :
    (∑ k ∈ Finset.range K, estep_responsibility K w k) = 1 ∧
    ((∑ j ∈ Finset.range K, w j) = 0 →
      ∀ k, estep_responsibility K w k = 1 / (K : ℚ)) := by
  have hKQ : ((K : ℚ)) ≠ 0 := Nat.cast_ne_zero.mpr hK.ne'
  constructor
  · by_cases hd : (∑ j ∈ Finset.range K, w j) = 0
    · simp only [estep_responsibility, if_pos hd, Finset.sum_const,
        Finset.card_range, nsmul_eq_mul]
      field_simp
    · simp only [estep_responsibility, if_neg hd]
      rw [← Finset.sum_div]
      exact div_self hd
  · intro hd k
    simp [estep_responsibility, hd]

/-- Witness for C7 at K = 2 with all weighted densities zero (the degenerate
point): the fallback row still sums to 1 and equals 1/2 everywhere. -/
theorem C7_responsibility_row_sums_to_one_witness :
    (0 < 2) ∧
    ((∑ k ∈ Finset.range 2, estep_responsibility 2 (fun _ => 0) k) = 1 ∧
     ((∑ j ∈ Finset.range 2, (fun _ => (0 : ℚ)) j) = 0 →
       ∀ k, estep_responsibility 2 (fun _ => 0) k = 1 / (2 : ℚ))) :=
  ⟨by norm_num,
   C7_responsibility_row_sums_to_one 2 (fun _ => 0) (by norm_num)⟩

/-- C9: dot fails with SizeError whenever the left operand's column count
differs from the right operand's row count, and otherwise returns an
r(A)×c(B) matrix; the model is pure, so the operands are untouched. -/
theorem C9_dot_size_check (A B : Mat) :
    (A.c ≠ B.r → Mat.dot A B = Except.error MatErr.sizeError) ∧
    (∀ h : A.c = B.r, ∃ C, Mat.dot A B = Except.ok C ∧ C.r = A.r ∧ C.c = B.c) := by
  constructor
  · intro h
    rw [Mat.dot, dif_neg h]
  · intro h
    refine ⟨⟨A.r, B.c, fun i j =>
      ∑ l : Fin A.c, A.entries i l * B.entries (Fin.cast h l) j⟩, ?_, rfl, rfl⟩
    rw [Mat.dot, dif_pos h]

/-- Witness for C9 at the spec's Scenario 4 shapes: a 3×2 and a 3×4 matrix
(column count 2 differs from row count 3), failing with SizeError. -/
theorem C9_dot_size_check_witness :
    matA32.c ≠ matB34.r ∧
    Mat.dot matA32 matB34 = Except.error MatErr.sizeError :=
  ⟨by decide, (C9_dot_size_check matA32 matB34).1 (by decide)⟩

/-- C3: contrary to the claim, after the centroid-update step a cluster's
centroid need not be the mean of its assigned points, because
calc_cluster_centroids never zeroes the coordinate sums (its zeroing loop
writes only the single index dim*k) and so accumulates on top of the incoming
centroid values: with dim = 1, points [1, 4], assignment [0, 1] and incoming
centroids [0, 5, 10], cluster 1 (one member, the point 4) gets centroid
(5 + 4) / 1 = 9 instead of the mean 4. -/
theorem C3_centroid_not_mean_of_assigned :
    calc_cluster_centroids 1 2 2 [1, 4] [0, 1] [0, 5, 10] = [1, 9, 0] ∧
    cluster_mean 1 2 [1, 4] [0, 1] 1 0 = 4 ∧
    (calc_cluster_centroids 1 2 2 [1, 4] [0, 1] [0, 5, 10]).getD 1 0 ≠
      cluster_mean 1 2 [1, 4] [0, 1] 1 0 := by
  have hmean : cluster_mean 1 2 [1, 4] [0, 1] 1 0 = 4 := by
    have hc : ((Finset.range 2).filter fun ii =>
        ([0, 1] : List ℤ).getD ii (-1) = ((1 : ℕ) : ℤ)).card = 1 := by decide
    rw [cluster_mean, hc]
    norm_num [Finset.sum_range_succ]
  have hcent : calc_cluster_centroids 1 2 2 [1, 4] [0, 1] [0, 5, 10] = [1, 9, 0] := by
    norm_num [calc_cluster_centroids, get_cluster_member_count, List.range_succ,
      List.replicate]
  refine ⟨hcent, hmean, ?_⟩
  rw [hcent, hmean]
  norm_num

/-- C4: contrary to the claim, when a cluster has zero assigned members the
centroid update still divides that cluster's coordinate sums by the zero
member count (the source's own comment admits it "will divide by zero here
for any empty clusters"): with dim = 1, points [1, 2] both assigned to
cluster 0, cluster 1's member count is 0, yet the division loop evaluates
5 / 0 for its coordinate (inf/nan in C, 0 in the exact-rational model), so
the previous centroid value 5 is not kept. -/
theorem C4_empty_cluster_division_by_zero_count :
    (get_cluster_member_count 2 2 [0, 0]).getD 1 0 = 0 ∧
    calc_cluster_centroids 1 2 2 [1, 2] [0, 0] [0, 5, 10] = [3 / 2, 0, 0] ∧
    (calc_cluster_centroids 1 2 2 [1, 2] [0, 0] [0, 5, 10]).getD 1 0 ≠ 5 := by
  refine ⟨by decide, ?_, ?_⟩ <;>
    norm_num [calc_cluster_centroids, get_cluster_member_count, List.range_succ,
      List.replicate]

/-- C1: contrary to the claim, the assignment stored by a kmeans iteration
need not pick the nearest centroid: the loop's reassignment call (src line
384) passes the distance table and the data array swapped, so the raw data is
read as distances.  On dim = 1, X = [4, 1], k = 2 the run converges with
final centroids [1, 9] (entries 0 and 1 of the centroid array) and final
assignment [1, 0]: point 0 (value 4) is stored in cluster 1 at squared
distance 25 although cluster 0 is at squared distance 9. -/
theorem C1_loop_reassignment_not_nearest :
    (kmeans 1 [4, 1] 2 2 []).1 = [1, 0] ∧
    (kmeans 1 [4, 1] 2 2 []).2.1.centroid = [1, 9, 0] ∧
    euclid_distance 1 (ptr [4, 1] 0) (ptr [1, 9, 0] 0) <
      euclid_distance 1 (ptr [4, 1] 0) (ptr [1, 9, 0] 1) := by
  have hcur : choose_all_clusters_from_distances 1 2 2 [4, 1]
      (all_distances 1 2 2 [4, 1] [0, 5, 10]) = [1, 0] := by
    norm_num [choose_all_clusters_from_distances, choose_point, all_distances,
      euclid_distance, ptr, sqr, List.range_succ, Finset.sum_range_succ]
  have hbody : kmeans_body 1 2 2 [4, 1] ⟨[1, 0], [1, 0], [0, 5, 10], 10000⟩ =
      KStep.converged ⟨[1, 0], [1, 0], [1, 9, 0], 10000⟩ 25 := by
    norm_num [kmeans_body, body_reassign, body_totD, body_centroid,
      calc_cluster_centroids, get_cluster_member_count,
      choose_all_clusters_from_distances, choose_point, all_distances,
      calc_total_distance, euclid_distance, assignment_change_count, ptr, sqr,
      List.range_succ, Finset.sum_range_succ, List.replicate]
  have hloop : kmeans_loop 1 2 2 [4, 1] 100 ⟨[1, 0], [1, 0], [0, 5, 10], 10000⟩ =
      (⟨[1, 0], [1, 0], [1, 9, 0], 10000⟩, 1, [25]) := by
    rw [show (100 : ℕ) = 99 + 1 from rfl]
    exact kmeans_loop_step_converged 99 hbody
  have hk : kmeans 1 [4, 1] 2 2 [] =
      ([1, 0], ⟨[1, 0], [1, 0], [1, 9, 0], 10000⟩, 1, [25]) := by
    simp only [kmeans, hcur, hloop]
  rw [hk]
  refine ⟨rfl, rfl, ?_⟩
  norm_num [euclid_distance, ptr, sqr, Finset.sum_range_succ]

/-- C2 counterexample: the claim's rollback clause fails on the code.  On
dim = 1, X = [1, 4, 9], k = 2 the run accepts iteration 0 and enters
iteration 1 in state ksIter1, whose centroids (from iteration 0's update) are
[1, 9, 0]; iteration 1's totD worsens, the loop rolls back and stops, but the
resulting centroids are [13/2, 13, 0] — not the previous iteration's
centroids, because the rollback recomputes them with the accumulating
calc_cluster_centroids instead of restoring them. -/
theorem C2_rollback_centroids_not_restored :
    kmeans_body 1 3 2 [1, 4, 9] ⟨[0, 1, 1], [0, 1, 1], [0, 5, 10], 10000⟩ =
      KStep.next ksIter1 ∧
    ksIter1.centroid = [1, 9, 0] ∧
    kmeans_body 1 3 2 [1, 4, 9] ksIter1 =
      KStep.rollback ⟨[0, 1, 1], [0, 1, 1], [13 / 2, 13, 0], 25⟩ ∧
    ([13 / 2, 13, 0] : List ℚ) ≠ [1, 9, 0] := by
  refine ⟨?_, rfl, ?_, by norm_num⟩ <;>
    norm_num [kmeans_body, body_reassign, body_totD, body_centroid,
      rollback_state, ksIter1, calc_cluster_centroids, get_cluster_member_count,
      choose_all_clusters_from_distances, choose_point, all_distances,
      calc_total_distance, euclid_distance, assignment_change_count, ptr, sqr,
      List.range_succ, Finset.sum_range_succ, List.replicate]

/-- C2 as amended: across the accepted iterations of a kmeans run the totD
values never increase (the trace of accepted totD values is a non-increasing
chain), and whenever a newly computed totD exceeds the stored previous value
the loop restores the previous assignment, recomputes the centroids from
that assignment (rather than restoring the previous iteration's centroids),
and stops. -/
theorem C2_totD_nonincreasing_and_rollback_stops (dim n k : ℕ) (X : List ℚ)
    (fuel : ℕ) (s : KState) :
    ((kmeans_loop dim n k X fuel s).2.2).Chain' (fun a b => b ≤ a) ∧
    (s.prevTotD < body_totD dim n k X s →
      kmeans_loop dim n k X (fuel + 1) s = (rollback_state dim n k X s, 1, []) ∧
      (rollback_state dim n k X s).cur = s.prev ∧
      (rollback_state dim n k X s).centroid =
        calc_cluster_centroids dim n k X s.prev (body_centroid dim n k X s)) := by
  refine ⟨(kmeans_loop_trace_le dim n k X fuel s).1, fun h => ⟨?_, rfl, rfl⟩⟩
  exact kmeans_loop_step_rollback fuel (kmeans_body_rollback_of_lt h)

/-- Witness for C2 at the concrete worsening iteration of the run on
X = [1, 4, 9]: the totD of iteration 1 (227/2) exceeds the stored previous
value 25, and the loop stops in the rollback state after one body
execution. -/
theorem C2_totD_nonincreasing_and_rollback_stops_witness :
    ksIter1.prevTotD < body_totD 1 3 2 [1, 4, 9] ksIter1 ∧
    kmeans_loop 1 3 2 [1, 4, 9] 5 ksIter1 =
      (rollback_state 1 3 2 [1, 4, 9] ksIter1, 1, []) := by
  have h : ksIter1.prevTotD < body_totD 1 3 2 [1, 4, 9] ksIter1 := by
    norm_num [ksIter1, body_totD, body_centroid, calc_cluster_centroids,
      get_cluster_member_count, calc_total_distance, euclid_distance, ptr, sqr,
      List.range_succ, Finset.sum_range_succ, List.replicate]
  exact ⟨h,
    ((C2_totD_nonincreasing_and_rollback_stops 1 3 2 [1, 4, 9] 4 ksIter1).2 h).1⟩

/-- C8: inv fails with SizeError on a non-square matrix and with LapackError
on a singular one; for every nonsingular square matrix A (well-conditioned in
the exact-rational model means invertible) the product dot(A, inv(A)) is
exactly the identity matrix. -/
theorem C8_inv_roundtrip (A : Mat) :
    (A.r ≠ A.c → Mat.inv A = Except.error MatErr.sizeError) ∧
    (∀ h : A.r = A.c, (A.sq h).det = 0 →
      Mat.inv A = Except.error MatErr.lapackError) ∧
    (∀ h : A.r = A.c, (A.sq h).det ≠ 0 →
      ∃ B, Mat.inv A = Except.ok B ∧ Mat.dot A B = Except.ok (Mat.identity A.r)) := by
  refine ⟨?_, ?_, ?_⟩
  · intro h
    rw [Mat.inv, dif_neg h]
  · intro h hd
    rw [Mat.inv, dif_pos h, if_pos hd]
  · intro h hd
    refine ⟨⟨A.r, A.r, fun i j => ((A.sq h).det)⁻¹ * (A.sq h).adjugate i j⟩, ?_, ?_⟩
    · rw [Mat.inv, dif_pos h, if_neg hd]
    · have hc : A.c = A.r := h.symm
      rw [Mat.dot, dif_pos hc]
      refine congrArg Except.ok ?_
      unfold Mat.identity
      congr 1
      funext i j
      have hsum : (∑ l : Fin A.c,
            A.entries i l * (((A.sq h).det)⁻¹ * (A.sq h).adjugate (Fin.cast hc l) j))
          = ∑ m : Fin A.r,
            (A.sq h) i m * (((A.sq h).det)⁻¹ * (A.sq h).adjugate m j) :=
        Fintype.sum_equiv (finCongr hc)
          (fun l => A.entries i l *
            (((A.sq h).det)⁻¹ * (A.sq h).adjugate (Fin.cast hc l) j))
          (fun m => (A.sq h) i m * (((A.sq h).det)⁻¹ * (A.sq h).adjugate m j))
          (fun l => rfl)
      rw [hsum]
      have h2 : (∑ m : Fin A.r,
            (A.sq h) i m * (((A.sq h).det)⁻¹ * (A.sq h).adjugate m j))
          = ((A.sq h).det)⁻¹ * ((A.sq h) * (A.sq h).adjugate) i j := by
        rw [Matrix.mul_apply, Finset.mul_sum]
        exact Finset.sum_congr rfl fun m _ => by ring
      rw [h2, Matrix.mul_adjugate, Matrix.smul_apply, Matrix.one_apply, smul_eq_mul]
      rcases eq_or_ne i j with hij | hij
      · simp [hij, inv_mul_cancel₀ hd]
      · simp [hij]

/-- Witness for C8 at the concrete well-conditioned matrix 2·I (2×2,
determinant 4): inv succeeds and dot(A, inv(A)) is exactly the identity. -/
theorem C8_inv_roundtrip_witness :
    (matTwo.sq rfl).det ≠ 0 ∧
    ∃ B, Mat.inv matTwo = Except.ok B ∧
      Mat.dot matTwo B = Except.ok (Mat.identity 2) := by
  have e1 : matTwo.entries (0 : Fin 2) (0 : Fin 2) = 2 := rfl
  have e2 : matTwo.entries (1 : Fin 2) (1 : Fin 2) = 2 := rfl
  have e3 : matTwo.entries (0 : Fin 2) (1 : Fin 2) = 0 := rfl
  have e4 : matTwo.entries (1 : Fin 2) (0 : Fin 2) = 0 := rfl
  have hd : (matTwo.sq rfl).det ≠ 0 := by
    rw [Matrix.det_fin_two]
    norm_num [Mat.sq, Fin.cast, e1, e2, e3, e4]
  exact ⟨hd, (C8_inv_roundtrip matTwo).2.2 rfl hd⟩
